import Mathlib

/-!
Shallow embedding of the retrieval-augmented question-answering library
(`app/services/qa_service.py`, `app/services/vector_service.py`,
`app/services/document_service.py`, `app/api/endpoints/documents.py`), with
theorems settling the specification claims about it.

Scores (FAISS distances, relevance scores, confidence) are modelled as
rationals; the external collaborators (vector search results, the language
model, the database writes) are modelled as explicit inputs so that every
control path of the Python code becomes a branch of a total Lean function.
-/

/-! ## Query engine (`QAService.answer_question`, qa_service.py lines 28-141) -/

/-- A langchain `Document` as returned by
`vector_service.search_similar_with_scores`: its text plus the two metadata
fields actually read by `answer_question` (`metadata.get "document_id"` and
`metadata.get "chunk_index"`, each possibly absent). -/
structure ChunkDoc where
  page_content : String
  document_id : Option String
  chunk_index : Option Nat
deriving DecidableEq, Repr

/-- `SourceDocument` from `app/models/query.py` (the fields set by
`answer_question`; the pydantic model places no bounds on
`relevance_score`). -/
structure SourceDocument where
  content : String
  relevance_score : ℚ
  document_id : String
  chunk_index : Nat
deriving DecidableEq, Repr

/-- `QueryRequest` from `app/models/query.py`, restricted to the fields that
influence the answer computation. -/
structure QueryRequest where
  question : String
  max_results : Nat
  include_sources : Bool
deriving DecidableEq, Repr

/-- `QueryResponse` from `app/models/query.py`, restricted to the fields the
claims are about (the pydantic model places no bounds on `confidence`). -/
structure QueryResponse where
  answer : String
  confidence : ℚ
  sources : List SourceDocument
deriving DecidableEq, Repr

/-- The environment of one `answer_question` call: what the similarity search
returned (`docs_with_scores`), what the generation chain did (`.ok answer`
or `.error message` for a raised exception), and whether the
`database.queries.insert_one` write inside `_save_query_to_database`
succeeds. -/
structure QAWorld where
  docs_with_scores : List (ChunkDoc × ℚ)
  genResult : Except String String
  saveOk : Bool
deriving Repr

/-- The fixed answer returned on the empty-search path
(qa_service.py line 43). -/
def noRelevantInfoAnswer : String :=
  "I couldn't find any relevant information in the uploaded documents to answer your question."

/-- The fixed text prepended to `str(e)` on the exception path
(qa_service.py line 110). -/
def errorAnswerText : String :=
  "I encountered an error while processing your question: "

/-- `doc.page_content[:300] + "..." if len(doc.page_content) > 300 else
doc.page_content` (qa_service.py line 74). -/
def truncateContent (s : String) : String :=
  if s.length > 300 then s.take 300 ++ "..." else s

/-- One `SourceDocument` built in the loop of qa_service.py lines 72-80:
`relevance_score = 1.0 - score`, `document_id = metadata.get("document_id",
"unknown")`, `chunk_index = metadata.get("chunk_index", i)`. -/
def mkSource (i : Nat) (doc : ChunkDoc) (score : ℚ) : SourceDocument :=
  { content := truncateContent doc.page_content
  , relevance_score := 1 - score
  , document_id := doc.document_id.getD "unknown"
  , chunk_index := doc.chunk_index.getD i }

/-- The `sources` list of qa_service.py lines 70-80: built from every search
result when `include_sources`, empty otherwise. -/
def buildSources (includeSources : Bool) (dws : List (ChunkDoc × ℚ)) :
    List SourceDocument :=
  if includeSources then dws.enum.map (fun p => mkSource p.1 p.2.1 p.2.2)
  else []

/-- `avg_relevance = sum(s.relevance_score for s in sources) / len(sources)
if sources else 0.0` (qa_service.py line 83). -/
def avgRelevance (sources : List SourceDocument) : ℚ :=
  if sources.isEmpty then 0
  else (sources.map SourceDocument.relevance_score).sum / sources.length

/-- `answer_length_factor = min(1.0, len(result["result"]) / 200)`
(qa_service.py line 84). -/
def answerLengthFactor (answer : String) : ℚ :=
  min 1 ((answer.length : ℚ) / 200)

/-- `QAService.answer_question` (qa_service.py lines 28-117) as a function of
its environment.  Returns the `QueryResponse` together with a flag telling
whether a query record was inserted into `database.queries`.  The three
control paths of the Python code:
* empty search results: fixed answer, confidence `0.0`, no sources, and the
  function returns before `_save_query_to_database` is reached;
* an exception (modelled at the generation call, the only step whose failure
  the spec discusses): the `except` block of lines 105-117 returns a degraded
  response, again without reaching `_save_query_to_database`;
* success: sources, confidence `min(0.95, (avg_relevance +
  answer_length_factor)/2)`, and the record is saved when the database write
  succeeds; a failing write is swallowed inside `_save_query_to_database`
  (lines 140-141), so the response does not depend on it. -/
def answer_question (req : QueryRequest) (w : QAWorld) :
    QueryResponse × Bool :=
  if w.docs_with_scores.isEmpty then
    ({ answer := noRelevantInfoAnswer, confidence := 0, sources := [] }, false)
  else
    match w.genResult with
    | .error e =>
        ({ answer := errorAnswerText ++ e, confidence := 0, sources := [] },
          false)
    | .ok ans =>
        let sources := buildSources req.include_sources w.docs_with_scores
        let confidence := (avgRelevance sources + answerLengthFactor ans) / 2
        ({ answer := ans
         , confidence := min (95/100 : ℚ) confidence
         , sources := sources },
          w.saveOk)

/-- Clamp of a rational to an interval, as the spec's words
`clamp(x, lo, hi)` describe it; used only to compare the spec's claimed
confidence formula with the one the code computes. -/
def clampQ (lo hi x : ℚ) : ℚ :=
  max lo (min hi x)

/-! ## Claims C1-C5: the query engine -/

/-- Concrete inputs exhibiting a search distance above 1 (the index may
return unnormalized distances, as the spec itself notes). -/
def c1req : QueryRequest := { question := "what?", max_results := 5, include_sources := true }

/-- One search hit at distance `3`, a successful empty generation, a working
database. -/
def c1w : QAWorld :=
  { docs_with_scores := [({ page_content := "t", document_id := some "d1", chunk_index := some 0 }, 3)]
  , genResult := .ok ""
  , saveOk := true }

/-- C1 (counterexample): the code applies `min(0.95, ·)` but no lower clamp,
so with a search distance of `3` and an empty generated answer the returned
confidence is `-1 < 0`, refuting `0.0 <= confidence`. -/
theorem c1_claim_counterexample :
    ¬ (0 ≤ (answer_question c1req c1w).1.confidence) := by
  have h : (answer_question c1req c1w).1.confidence = -1 := by
    simp [answer_question, c1req, c1w, buildSources, mkSource, avgRelevance,
      answerLengthFactor, truncateContent, List.enum, List.enumFrom]
    norm_num
  rw [h]; norm_num

/-- C1 (amended): the confidence returned by `answer_question` is always at
most `0.95` and is exactly `0.0` when the search returns no results, but it
is computed as `min(0.95, (mean(relevance) + min(1, len(answer)/200)) / 2)`
with no lower clamp at `0`. -/
theorem c1_confidence_bounds (req : QueryRequest) (w : QAWorld) :
    (answer_question req w).1.confidence ≤ 95/100
    ∧ (w.docs_with_scores = [] → (answer_question req w).1.confidence = 0)
    ∧ (∀ ans, w.genResult = .ok ans → w.docs_with_scores ≠ [] →
        (answer_question req w).1.confidence =
          min (95/100 : ℚ)
            ((avgRelevance (buildSources req.include_sources w.docs_with_scores)
              + answerLengthFactor ans) / 2)) := by
  refine ⟨?_, ?_, ?_⟩
  · unfold answer_question
    by_cases h : w.docs_with_scores.isEmpty
    · simp [h]; norm_num
    · cases hg : w.genResult with
      | error e => simp [h, hg]; norm_num
      | ok ans => simp [h, hg]
  · intro h
    simp [answer_question, h]
  · intro ans hg hne
    have h : w.docs_with_scores.isEmpty = false := by
      simpa [List.isEmpty_iff] using hne
    simp [answer_question, h, hg]

/-- C1 witness: the amended bounds evaluated on a concrete call with no
search results. -/
theorem c1_confidence_bounds_witness :
    (answer_question { question := "q?", max_results := 5, include_sources := true }
        { docs_with_scores := [], genResult := .ok "a", saveOk := true }).1.confidence ≤ 95/100
    ∧ (answer_question { question := "q?", max_results := 5, include_sources := true }
        { docs_with_scores := [], genResult := .ok "a", saveOk := true }).1.confidence = 0 := by
  have h := c1_confidence_bounds
    { question := "q?", max_results := 5, include_sources := true }
    { docs_with_scores := [], genResult := .ok "a", saveOk := true }
  exact ⟨h.1, h.2.1 rfl⟩

/-- Request used for the C2 counterexample (sources included). -/
def c2req : QueryRequest := { question := "why?", max_results := 5, include_sources := true }

/-- One search hit at distance `3/2` (outside `[0,1]`), successful
generation. -/
def c2w : QAWorld :=
  { docs_with_scores := [({ page_content := "t", document_id := some "d2", chunk_index := some 0 }, 3/2)]
  , genResult := .ok "a"
  , saveOk := true }

/-- C2 (counterexample): the code computes `relevance_score = 1.0 - score`
with no clamping, so a distance of `3/2` yields a source carrying relevance
`-1/2 < 0`, refuting "no source ever carries a relevance score below 0". -/
theorem c2_claim_counterexample :
    ((answer_question c2req c2w).1.sources.map SourceDocument.relevance_score)
      = [-(1/2)] ∧ (-(1/2) : ℚ) < 0 := by
  constructor
  · simp [answer_question, c2req, c2w, buildSources, mkSource, truncateContent,
      List.enum, List.enumFrom]
    norm_num
  · norm_num

/-- C2 (amended): every source built by `answer_question` carries
`relevance_score` exactly `1 - distance` for the corresponding search
result; no clamping to `[0,1]` is applied, so the score lies outside `[0,1]`
whenever the distance does. -/
theorem c2_relevance_one_minus_distance (req : QueryRequest) (w : QAWorld)
    (ans : String) (hg : w.genResult = .ok ans)
    (hne : w.docs_with_scores ≠ []) (hinc : req.include_sources = true) :
    (answer_question req w).1.sources.length = w.docs_with_scores.length
    ∧ ∀ i (h1 : i < (answer_question req w).1.sources.length)
        (h2 : i < w.docs_with_scores.length),
        ((answer_question req w).1.sources.get ⟨i, h1⟩).relevance_score
          = 1 - (w.docs_with_scores.get ⟨i, h2⟩).2 := by
  have hE : w.docs_with_scores.isEmpty = false := by
    simpa [List.isEmpty_iff] using hne
  have hs : (answer_question req w).1.sources
      = w.docs_with_scores.enum.map (fun p => mkSource p.1 p.2.1 p.2.2) := by
    simp [answer_question, hE, hg, buildSources, hinc]
  constructor
  · simp [hs, List.enum_length]
  · intro i h1 h2
    simp only [hs, List.get_eq_getElem, List.getElem_map, List.getElem_enum]
    rfl

/-- C2 witness: the amended statement evaluated on a concrete call with one
search result at distance `1/4`. -/
theorem c2_relevance_one_minus_distance_witness :
    (answer_question { question := "q?", max_results := 5, include_sources := true }
      { docs_with_scores := [({ page_content := "t", document_id := some "d", chunk_index := some 0 }, 1/4)]
      , genResult := .ok "a", saveOk := true }).1.sources.length = 1 := by
  have h := c2_relevance_one_minus_distance
    { question := "q?", max_results := 5, include_sources := true }
    { docs_with_scores := [({ page_content := "t", document_id := some "d", chunk_index := some 0 }, 1/4)]
    , genResult := .ok "a", saveOk := true }
    "a" rfl (by simp) rfl
  simpa using h.1

/-- Inputs for the C3 counterexample: the empty-search path. -/
def c3req : QueryRequest := { question := "q?", max_results := 5, include_sources := true }

/-- Empty search results with a perfectly healthy database. -/
def c3w : QAWorld := { docs_with_scores := [], genResult := .ok "a", saveOk := true }

/-- C3 (counterexample): on the empty-search path `answer_question` returns
at qa_service.py line 42 before `_save_query_to_database` is ever called, so
no Query record is persisted even though the database write would have
succeeded — refuting "persisted regardless of which path is taken". -/
theorem c3_claim_counterexample :
    (answer_question c3req c3w).2 = false := by
  simp [answer_question, c3req, c3w]

/-- C3 (amended): a Query record is persisted only on the successful
generation path (where it is persisted exactly when the database write
succeeds); the empty-search and generation-failure paths return without
persisting anything; and on every path a failed persistence write is
swallowed — the user-facing response is identical whether the write succeeds
or fails. -/
theorem c3_persistence_only_on_success (req : QueryRequest) (w : QAWorld) :
    (w.docs_with_scores = [] → (answer_question req w).2 = false)
    ∧ (∀ e, w.genResult = .error e → (answer_question req w).2 = false)
    ∧ (∀ ans, w.genResult = .ok ans → w.docs_with_scores ≠ [] →
        (answer_question req w).2 = w.saveOk)
    ∧ (answer_question req { w with saveOk := false }).1
        = (answer_question req { w with saveOk := true }).1 := by
  refine ⟨?_, ?_, ?_, ?_⟩
  · intro h; simp [answer_question, h]
  · intro e hg
    unfold answer_question
    by_cases h : w.docs_with_scores.isEmpty
    · simp [h]
    · simp [h, hg]
  · intro ans hg hne
    have hE : w.docs_with_scores.isEmpty = false := by
      simpa [List.isEmpty_iff] using hne
    simp [answer_question, hE, hg]
  · unfold answer_question
    by_cases h : w.docs_with_scores.isEmpty
    · simp [h]
    · cases hg : w.genResult with
      | error e => simp [h, hg]
      | ok ans => simp [h, hg]

/-- C3 witness: the amended statement evaluated on a concrete
generation-failure call. -/
theorem c3_persistence_only_on_success_witness :
    (answer_question { question := "q?", max_results := 5, include_sources := true }
      { docs_with_scores := [({ page_content := "t", document_id := some "d", chunk_index := some 0 }, 0)]
      , genResult := .error "boom", saveOk := true }).2 = false := by
  have h := c3_persistence_only_on_success
    { question := "q?", max_results := 5, include_sources := true }
    { docs_with_scores := [({ page_content := "t", document_id := some "d", chunk_index := some 0 }, 0)]
    , genResult := .error "boom", saveOk := true }
  exact h.2.1 "boom" rfl

/-- Inputs for the C4 counterexample: a generation failure with non-empty
search results and a healthy database. -/
def c4req : QueryRequest := { question := "how?", max_results := 5, include_sources := true }

/-- One search hit, generation raises, database write would succeed. -/
def c4w : QAWorld :=
  { docs_with_scores := [({ page_content := "t", document_id := some "d4", chunk_index := some 0 }, 0)]
  , genResult := .error "model unavailable"
  , saveOk := true }

/-- C4 (counterexample): on the exception path `answer_question` returns at
qa_service.py line 109 without calling `_save_query_to_database`, so the
degraded Query record is not persisted — refuting "whose record is still
persisted". -/
theorem c4_claim_counterexample :
    (answer_question c4req c4w).2 = false := by
  simp [answer_question, c4req, c4w]

/-- C4 (amended): every generation exception is caught and the call returns
normally with a well-formed degraded response — answer text describing the
failure (the fixed error text followed by the exception message, hence
non-empty), confidence `0.0`, empty sources — but the record of that call is
not persisted. -/
theorem c4_generation_failure_degraded (req : QueryRequest) (w : QAWorld)
    (e : String) (hg : w.genResult = .error e)
    (hne : w.docs_with_scores ≠ []) :
    answer_question req w =
      ({ answer := errorAnswerText ++ e, confidence := 0, sources := [] }, false)
    ∧ (answer_question req w).1.answer ≠ "" := by
  have hE : w.docs_with_scores.isEmpty = false := by
    simpa [List.isEmpty_iff] using hne
  have h : answer_question req w =
      ({ answer := errorAnswerText ++ e, confidence := 0, sources := [] }, false) := by
    simp [answer_question, hE, hg]
  refine ⟨h, ?_⟩
  rw [h]
  intro hcontra
  have h2 : (errorAnswerText ++ e).length = 0 := by
    have h4 : errorAnswerText ++ e = "" := hcontra
    rw [h4]; rfl
  rw [String.length_append] at h2
  have h3 : errorAnswerText.length = 55 := rfl
  omega

/-- C4 witness: the amended statement evaluated on a concrete failing call. -/
theorem c4_generation_failure_degraded_witness :
    answer_question { question := "q?", max_results := 3, include_sources := false }
      { docs_with_scores := [({ page_content := "x", document_id := none, chunk_index := none }, 1)]
      , genResult := .error "timeout", saveOk := false } =
      ({ answer := errorAnswerText ++ "timeout", confidence := 0, sources := [] }, false) := by
  have h := c4_generation_failure_degraded
    { question := "q?", max_results := 3, include_sources := false }
    { docs_with_scores := [({ page_content := "x", document_id := none, chunk_index := none }, 1)]
    , genResult := .error "timeout", saveOk := false }
    "timeout" rfl (by simp)
  exact h.1

/-- C5 (confirmed): when the similarity search returns no results,
`answer_question` returns immediately with the fixed
"no relevant information" answer, confidence `0.0` and empty sources; the
outcome is a normal return, not an exception. -/
theorem c5_empty_search_normal_outcome (req : QueryRequest) (w : QAWorld)
    (h : w.docs_with_scores = []) :
    (answer_question req w).1 =
      { answer := noRelevantInfoAnswer, confidence := 0, sources := [] } := by
  simp [answer_question, h]

/-- C5 witness: the empty-search behaviour on a concrete call. -/
theorem c5_empty_search_normal_outcome_witness :
    (answer_question { question := "anything?", max_results := 5, include_sources := true }
      { docs_with_scores := [], genResult := .ok "a", saveOk := true }).1 =
      { answer := noRelevantInfoAnswer, confidence := 0, sources := [] } :=
  c5_empty_search_normal_outcome _ _ rfl

/-! ## Chunker (spec section 4.1; claim C6) -/

/-- Modelled from the spec: the Chunker itself (langchain's
`RecursiveCharacterTextSplitter`, configured by `DocumentService.__init__`
in document_service.py lines 20-24 with `CHUNK_SIZE = 1000` and
`CHUNK_OVERLAP = 200` from `app/core/config.py`) is not part of the
repository sources.  Per spec section 4.1 it emits a sliding window over the
text: each chunk holds at most `size` characters and consecutive chunks
overlap by `overlap` characters, so successive chunks start
`size - overlap` characters apart.  This helper chunks a non-empty text;
a degenerate configuration (`size ≤ overlap`) yields the whole text as one
chunk. -/
def chunkText (size overlap : Nat) (t : List Char) : List (List Char) :=
  if _h : t.length ≤ size ∨ size ≤ overlap then [t]
  else t.take size :: chunkText size overlap (t.drop (size - overlap))
termination_by t.length
decreasing_by
  push_neg at _h
  simp only [List.length_drop]
  omega

/-- Modelled from the spec: the Chunker's entry point; empty text yields
zero chunks (spec section 4.1, "Degenerate inputs (empty text) yield zero
chunks"). -/
def split_text (size overlap : Nat) (t : List Char) : List (List Char) :=
  if t.isEmpty then [] else chunkText size overlap t

/-- Closed-form chunk count for the sliding window: with `s = size - overlap`
the count of `chunkText` on a text longer than `overlap` is
`ceil((len - overlap) / s)`, written in natural division as
`(len - overlap + s - 1) / s`. -/
lemma chunkText_length (size overlap : Nat) (hso : overlap < size) :
    ∀ n (t : List Char), t.length = n → overlap < t.length →
      (chunkText size overlap t).length
        = (t.length - overlap + (size - overlap) - 1) / (size - overlap) := by
  intro n
  induction n using Nat.strong_induction_on with
  | _ n ih =>
    intro t ht hlt
    rw [chunkText]
    by_cases hcase : t.length ≤ size ∨ size ≤ overlap
    · rw [dif_pos hcase]
      have hts : t.length ≤ size := by omega
      simp only [List.length_singleton]
      exact (Nat.div_eq_of_lt_le (by omega) (by omega)).symm
    · rw [dif_neg hcase]
      push_neg at hcase
      have hs : 0 < size - overlap := by omega
      have hrec := ih ((t.drop (size - overlap)).length)
        (by simp only [List.length_drop]; omega)
        (t.drop (size - overlap)) rfl
        (by simp only [List.length_drop]; omega)
      simp only [List.length_cons, hrec, List.length_drop]
      have harith : t.length - overlap + (size - overlap) - 1
          = (t.length - (size - overlap) - overlap + (size - overlap) - 1)
            + (size - overlap) := by omega
      rw [harith, Nat.add_div_right _ hs]

/-- Chunk count of `split_text` on a text longer than the overlap. -/
lemma split_text_length (size overlap : Nat) (hso : overlap < size)
    (t : List Char) (hlen : overlap < t.length) :
    (split_text size overlap t).length
      = (t.length - overlap + (size - overlap) - 1) / (size - overlap) := by
  have hne : t.isEmpty = false := by
    cases t with
    | nil => simp at hlen
    | cons a l => rfl
  rw [split_text, hne]
  simp only [Bool.false_eq_true, if_false]
  exact chunkText_length size overlap hso t.length t rfl hlen

/-- The chunk count of the spec's 2500-character scenario under the
configured `chunk_size = 1000, chunk_overlap = 200`. -/
lemma split_text_2500 :
    (split_text 1000 200 (List.replicate 2500 'a')).length = 3 := by
  have hlen : (List.replicate 2500 'a').length = 2500 := by
    rw [List.length_replicate]
  rw [split_text_length 1000 200 (by norm_num) _ (by rw [hlen]; norm_num), hlen]

/-- C6 (counterexample): a 2500-character document chunked with
`chunk_size = 1000, chunk_overlap = 200` yields
`ceil((2500 - 200) / (1000 - 200)) = 3` chunks, not the 4 the claim states
(the claim's own closed-form formula already gives 3). -/
theorem c6_claim_counterexample :
    (split_text 1000 200 (List.replicate 2500 'a')).length = 3
    ∧ (3 : Nat) ≠ 4 := by
  exact ⟨split_text_2500, by decide⟩

/-- C6 (amended): for `size > overlap` and any text longer than `overlap`
characters, the Chunker produces exactly
`ceil((len - overlap) / (size - overlap))` chunks; in particular a
2500-character document with `chunk_size = 1000, chunk_overlap = 200` yields
3 chunks. -/
theorem c6_chunk_count (size overlap : Nat) (t : List Char)
    (hso : overlap < size) (hlen : overlap < t.length) :
    (split_text size overlap t).length
      = (t.length - overlap + (size - overlap) - 1) / (size - overlap)
    ∧ (split_text 1000 200 (List.replicate 2500 'a')).length = 3 := by
  exact ⟨split_text_length size overlap hso t hlen, split_text_2500⟩

/-- C6 witness: the amended count evaluated at `size = 3, overlap = 1` on a
5-character text (`ceil(4/2) = 2` chunks) and on the 2500-character
scenario. -/
theorem c6_chunk_count_witness :
    (split_text 3 1 (List.replicate 5 'x')).length = (5 - 1 + 2 - 1) / 2
    ∧ (split_text 1000 200 (List.replicate 2500 'a')).length = 3 := by
  have h := c6_chunk_count 3 1 (List.replicate 5 'x') (by norm_num) (by simp)
  refine ⟨?_, h.2⟩
  simpa using h.1

/-! ## Ingestion (`DocumentService.process_document`; claim C7) -/

/-- The document status lifecycle of `app/models/document.py`
(`DocumentStatus`). -/
inductive DocStatus
  | uploading
  | processing
  | processed
  | failed
deriving DecidableEq, Repr

/-- The status-lifecycle fields of this upload's record in the `documents`
collection: its status and the recorded error, if any. -/
structure DocRecordState where
  status : DocStatus
  error : Option String
deriving DecidableEq, Repr

/-- Failure injection for one `process_document` run
(document_service.py lines 45-126): whether the content type is in
`self.loaders` (line 59), whether `loader.load()` succeeds (line 65),
whether `database.knowledge_base.insert_many` succeeds (line 108), and the
`str(e)` of the raised exception. -/
structure IngestWorld where
  supported : Bool
  loadOk : Bool
  insertChunksOk : Bool
  errMsg : String
deriving DecidableEq, Repr

/-- The successive states of this upload's Document record in the
`documents` collection over one `process_document` run.  The record starts
absent; on the happy path it is inserted directly with status `processed`
(line 79) *before* the chunks are inserted (line 108); on any failure the
`except` handler (lines 114-126) runs `update_one` setting status `failed`
with the error — an update that matches nothing (leaving the record absent)
when the failure occurred before the document insert. -/
def process_document_trace (w : IngestWorld) : List (Option DocRecordState) :=
  if w.supported = false ∨ w.loadOk = false then
    [none, none]
  else if w.insertChunksOk then
    [none, some { status := .processed, error := none }]
  else
    [none, some { status := .processed, error := none },
      some { status := .failed, error := some w.errMsg }]

/-- The state of this upload's Document record once `process_document` has
returned (or raised): the last entry of the trace. -/
def process_document_final (w : IngestWorld) : Option DocRecordState :=
  (process_document_trace w).getLastD none

/-- C7 (counterexample): when chunk insertion fails, the Document record
nevertheless existed in `processed` state for the interval between the
document insert (line 89, status already `processed`) and the failing chunk
insert (line 108) — refuting "no Document record for that upload ever exists
in the processed state". -/
theorem c7_claim_counterexample :
    some { status := DocStatus.processed, error := none }
      ∈ process_document_trace
          { supported := true, loadOk := true, insertChunksOk := false
          , errMsg := "insert_many failed" } := by
  simp [process_document_trace]

/-- C7 (amended): when chunk insertion fails, the *final* state of the
Document record is `failed` with the error recorded (never `processed`,
never `processing`), and at no point of any run is the record in
`processing` state; however the record transiently exists in `processed`
state, because the code inserts it with status `processed` before inserting
the chunks. -/
theorem c7_ingestion_failure_final_state (w : IngestWorld)
    (hs : w.supported = true) (hl : w.loadOk = true)
    (hc : w.insertChunksOk = false) :
    process_document_final w
      = some { status := .failed, error := some w.errMsg }
    ∧ (∀ s, process_document_final w = some s → s.status ≠ .processed)
    ∧ (∀ s, some s ∈ process_document_trace w → s.status ≠ .processing) := by
  obtain ⟨sup, lok, cok, msg⟩ := w
  simp only at hs hl hc
  subst hs hl hc
  refine ⟨?_, ?_, ?_⟩
  · simp [process_document_final, process_document_trace]
  · intro s hsf
    simp [process_document_final, process_document_trace] at hsf
    simp [← hsf]
  · intro s hmem
    simp [process_document_trace] at hmem
    rcases hmem with h | h <;> simp [h]

/-- C7 witness: the amended statement evaluated on a concrete run whose
chunk insertion fails. -/
theorem c7_ingestion_failure_final_state_witness :
    process_document_final
        { supported := true, loadOk := true, insertChunksOk := false
        , errMsg := "disk full" }
      = some { status := .failed, error := some "disk full" } := by
  exact (c7_ingestion_failure_final_state _ rfl rfl rfl).1

/-! ## Vector store (`VectorService`; claims C8, C9) and document store -/

/-- A chunk record of the `knowledge_base` collection as written by
`process_document` (document_service.py lines 94-104): owning document id,
text content, and its sequence index. -/
structure ChunkRec where
  document_id : String
  content : String
  chunk_index : Nat
deriving DecidableEq, Repr

/-- A record of the `documents` collection (only the `_id` matters for the
claims settled here). -/
structure DocumentRec where
  id : String
deriving DecidableEq, Repr

/-- The MongoDB state seen by the services: the `documents` and
`knowledge_base` collections, each in insertion order. -/
structure Store where
  documents : List DocumentRec
  knowledge_base : List ChunkRec
deriving DecidableEq, Repr

/-- An entry of the FAISS vector store: the embedded text plus the metadata
`answer_question` later reads back.  The dummy entry created by
`FAISS.from_texts(texts=[""])` on the empty-store path
(vector_service.py lines 73-76) carries no metadata. -/
structure IndexRec where
  content : String
  meta : Option (String × Nat)
deriving DecidableEq, Repr

/-- The index entry corresponding to one knowledge-base chunk
(`texts`/`metadatas` of vector_service.py lines 57-58). -/
def chunkToIndexRec (c : ChunkRec) : IndexRec :=
  { content := c.content, meta := some (c.document_id, c.chunk_index) }

/-- `VectorService.rebuild_vector_store` (vector_service.py lines 47-81):
reads every chunk of `knowledge_base` and builds a fresh index from them;
when the store holds no chunks it instead builds `FAISS.from_texts([""])`,
an index containing a single empty-text entry with no metadata. -/
def rebuild_vector_store (store : Store) : List IndexRec :=
  if store.knowledge_base.isEmpty then
    [{ content := "", meta := none }]
  else
    store.knowledge_base.map chunkToIndexRec

/-- The mutable state of the `VectorService` singleton:
`self.vector_store`, `None` until first initialized. -/
structure VectorServiceState where
  vector_store : Option (List IndexRec)
deriving DecidableEq, Repr

/-- The effect of `rebuild_vector_store` on the service state: the previous
index (whatever it was) is replaced by one computed from the store alone. -/
def rebuildVS (store : Store) (vs : VectorServiceState) : VectorServiceState :=
  match vs with
  | _ => { vector_store := some (rebuild_vector_store store) }

/-- `similarity_search_with_score` over the model index, with the embedding
metric abstracted as `dist query text`: every entry is paired with its
distance, the list is sorted by ascending distance (`List.mergeSort` is
stable, so ties keep insertion order), and the `k` closest are returned. -/
def search_similar_with_scores (dist : String → String → ℚ)
    (index : List IndexRec) (query : String) (k : Nat) :
    List (IndexRec × ℚ) :=
  ((index.map (fun r => (r, dist query r.content))).mergeSort
    (fun a b => decide (a.2 ≤ b.2))).take k

/-- `VectorService.search_similar_with_scores` (vector_service.py lines
126-136): empty when `self.vector_store` was never set. -/
def searchVS (dist : String → String → ℚ) (vs : VectorServiceState)
    (query : String) (k : Nat) : List (IndexRec × ℚ) :=
  match vs.vector_store with
  | none => []
  | some index => search_similar_with_scores dist index query k

/-- `DocumentService.delete_document` (document_service.py lines 165-178):
delete the document record; if none was deleted return `False` without
touching the chunks, else delete all chunks carrying that document id and
return `True`. -/
def delete_document (store : Store) (document_id : String) : Store × Bool :=
  if store.documents.any (fun d => d.id = document_id) then
    ({ documents := store.documents.filter (fun d => ¬ d.id = document_id)
     , knowledge_base :=
        store.knowledge_base.filter (fun c => ¬ c.document_id = document_id) },
      true)
  else
    (store, false)

/-- C8 (confirmed): `rebuild_vector_store` computes the new index from the
`knowledge_base` enumeration alone and overwrites `self.vector_store`, so
rebuilding twice in a row with no store mutation in between leaves the
service in the same state as one rebuild, and every subsequent search
returns results identical in both ranking and distance scores. -/
theorem c8_rebuild_idempotent (dist : String → String → ℚ)
    (vs : VectorServiceState) (store : Store) (query : String) (k : Nat) :
    searchVS dist (rebuildVS store (rebuildVS store vs)) query k
      = searchVS dist (rebuildVS store vs) query k := rfl

/-- The chunk set the delete endpoint leaves behind: when `delete_document`
reports success, the remaining `knowledge_base` is exactly the old one with
every chunk of the deleted document filtered out. -/
lemma delete_document_kb (store : Store) (id : String)
    (hdel : (delete_document store id).2 = true) :
    (delete_document store id).1.knowledge_base
      = store.knowledge_base.filter (fun c => ¬ c.document_id = id) := by
  unfold delete_document at hdel ⊢
  by_cases hany : (store.documents.any fun d => decide (d.id = id)) = true
  · simp only [hany, if_true]
  · simp only [hany, if_false] at hdel
    simp at hdel

/-- C9 (counterexample): a successful rebuild from an *empty* document store
does not leave the index's chunk set equal to the store's (empty) chunk set:
`rebuild_vector_store` falls back to `FAISS.from_texts([""])`, an index
holding one dummy empty-text entry. -/
theorem c9_claim_counterexample :
    rebuild_vector_store { documents := [], knowledge_base := [] }
      ≠ ({ documents := [], knowledge_base := [] } : Store).knowledge_base.map
          chunkToIndexRec := by
  simp [rebuild_vector_store]

/-- C9 (amended): after a successful `delete_document(id)` followed by a
rebuild, no search against the rebuilt index ever returns an entry whose
owning document id is `id` (the dummy entry of the empty-store fallback owns
no document at all); and after any rebuild from a *non-empty* store the
index's entries are exactly the store's chunks, in enumeration order.  For
an empty store the index instead holds the single dummy entry. -/
theorem c9_deletion_consistency (dist : String → String → ℚ)
    (vs : VectorServiceState) (store : Store) (id : String)
    (query : String) (k : Nat)
    (hdel : (delete_document store id).2 = true) :
    (∀ r ∈ searchVS dist (rebuildVS (delete_document store id).1 vs) query k,
        r.1.meta.map Prod.fst ≠ some id)
    ∧ (∀ s : Store, s.knowledge_base ≠ [] →
        rebuild_vector_store s = s.knowledge_base.map chunkToIndexRec) := by
  have hkb := delete_document_kb store id hdel
  constructor
  · intro r hr
    simp only [searchVS, rebuildVS] at hr
    have hr2 : r ∈ (rebuild_vector_store (delete_document store id).1).map
        (fun rec => (rec, dist query rec.content)) :=
      List.mem_mergeSort.mp (List.mem_of_mem_take hr)
    obtain ⟨rec, hrecmem, hreq⟩ := List.mem_map.mp hr2
    have hr1 : r.1 = rec := by rw [← hreq]
    rw [hr1]
    unfold rebuild_vector_store at hrecmem
    by_cases hE : (delete_document store id).1.knowledge_base.isEmpty
    · rw [if_pos hE] at hrecmem
      simp only [List.mem_singleton] at hrecmem
      rw [hrecmem]
      simp
    · rw [if_neg hE] at hrecmem
      obtain ⟨c, hc, hcrec⟩ := List.mem_map.mp hrecmem
      rw [hkb] at hc
      have hne := (List.mem_filter.mp hc).2
      simp only [decide_not, Bool.not_eq_true', decide_eq_false_iff_not] at hne
      rw [← hcrec]
      simp [chunkToIndexRec, hne]
  · intro s hs
    unfold rebuild_vector_store
    rw [if_neg (by simpa [List.isEmpty_iff] using hs)]

/-- C9 witness: the amended statement applied to a concrete two-document
store from which `"d1"` is deleted. -/
theorem c9_deletion_consistency_witness :
    rebuild_vector_store
        { documents := [{ id := "d2" }]
        , knowledge_base := [{ document_id := "d2", content := "y", chunk_index := 0 }] }
      = [{ content := "y", meta := some ("d2", 0) }] := by
  have h := c9_deletion_consistency (fun _ _ => 0) { vector_store := none }
    { documents := [{ id := "d1" }, { id := "d2" }]
    , knowledge_base := [{ document_id := "d1", content := "x", chunk_index := 0 },
        { document_id := "d2", content := "y", chunk_index := 0 }] }
    "d1" "q" 5 (by decide)
  have h2 := h.2
    { documents := [{ id := "d2" }]
    , knowledge_base := [{ document_id := "d2", content := "y", chunk_index := 0 }] }
    (by simp)
  rw [h2]
  rfl
/-! ## Upload endpoint (`upload_document`, documents.py; claim C10) -/

/-- The Document response body that the return statement of documents.py
lines 56-63 tries to build: the literal id `"processing"`, the filename, and
status `processing` — not the uuid the background task would persist
under. -/
structure UploadResponse where
  id : String
  filename : String
  status : DocStatus
deriving DecidableEq, Repr

/-- `MAX_FILE_SIZE` from `app/core/config.py` line 26. -/
def MAX_FILE_SIZE : Nat := 10 * 1024 * 1024

/-- `ALLOWED_FILE_TYPES` from `app/core/config.py` line 28. -/
def ALLOWED_FILE_TYPES : List String :=
  ["application/pdf", "text/plain", "text/csv",
   "application/vnd.openxmlformats-officedocument.wordprocessingml.document"]

/-- What one `POST /upload` call sends back: a Document response body, or an
`HTTPException` status code with its detail text. -/
inductive UploadOutcome
  | response (r : UploadResponse)
  | httpError (status : Nat) (detail : String)
deriving DecidableEq, Repr

/-- `upload_document` (documents.py lines 15-67).  The handler rejects
oversized files with 413 (line 27) and unsupported content types with 400
(line 31), then enters the try block.  The module's imports (lines 1-9) are
fastapi, typing, os, the app models, services, settings and logging —
`datetime` is never imported, so building the response at line 61 evaluates
`datetime.utcnow()` and raises `NameError: name 'datetime' is not defined`,
which the except at lines 65-67 converts into HTTP 500 with detail
`"Upload failed: " + str(e)`.  The return of lines 56-63 — a body with the
literal id `"processing"` — is therefore unreachable; and had the name
resolved, `DocumentResponse.id` is declared with alias `"_id"`
(models/document.py line 26), so constructing it with the `id=` keyword
would raise a pydantic `ValidationError`, caught into the same 500. -/
def upload_document (content_type : String) (file_size : Nat) : UploadOutcome :=
  if MAX_FILE_SIZE < file_size then
    .httpError 413 "File too large"
  else if ALLOWED_FILE_TYPES.contains content_type = false then
    .httpError 400 "Unsupported file type"
  else
    .httpError 500 ("Upload failed: " ++ "name 'datetime' is not defined")

/-- `DocumentService.get_document` (document_service.py lines 128-135):
`find_one({"_id": document_id})`. -/
def get_document (store : Store) (document_id : String) : Option DocumentRec :=
  store.documents.find? (fun d => d.id = document_id)

/-- The document insert performed by a background `process_document` run
(document_service.py lines 74-89): the record is stored under the freshly
generated uuid `doc_id` of line 55, never under the literal
`"processing"`. -/
def insert_document (store : Store) (doc_id : String) : Store :=
  { store with documents := store.documents ++ [{ id := doc_id }] }

/-- C10 (code bug, the code evaluated at the failing input): every upload
that passes the size and content-type validations is answered with HTTP 500
carrying the `NameError` for the missing `datetime` import, and no call to
the endpoint ever returns a Document response at all — in particular never
one whose id is the literal `"processing"`. -/
theorem c10_upload_always_fails (content_type : String) (file_size : Nat)
    (hsize : file_size ≤ MAX_FILE_SIZE)
    (htype : ALLOWED_FILE_TYPES.contains content_type = true) :
    upload_document content_type file_size
      = .httpError 500 ("Upload failed: " ++ "name 'datetime' is not defined")
    ∧ ∀ r : UploadResponse,
        upload_document content_type file_size ≠ .response r := by
  have h5 : upload_document content_type file_size
      = .httpError 500 ("Upload failed: " ++ "name 'datetime' is not defined") := by
    unfold upload_document
    rw [if_neg (by omega), if_neg (by rw [htype]; simp)]
  refine ⟨h5, ?_⟩
  intro r
  rw [h5]
  intro hcontra
  exact UploadOutcome.noConfusion hcontra

/-- C10 witness: a 5-byte `text/plain` upload — valid under both checks —
still gets HTTP 500. -/
theorem c10_upload_always_fails_witness :
    upload_document "text/plain" 5
      = .httpError 500 ("Upload failed: " ++ "name 'datetime' is not defined") := by
  exact (c10_upload_always_fails "text/plain" 5
    (by norm_num [MAX_FILE_SIZE]) (by decide)).1
